import Mathlib

/-!
# PAPS_project: the note list controller of `main.cpp`

A shallow embedding of `src/PAPS_project/main.cpp`: the `Note` record, the
`NoteListModel` (row count and display label), the `NoteEditor` form, the
`NoteView` detail labels, the `QListWidget` that carries the selection, and the
slots of `NoteController` (`createNote`, `deleteNote`, `saveNote`,
`updateNoteList`, `onNoteListItemChanged`).

Conventions.
* `QString` is `String`; `QList<Note>` is `List Note`.
* `QDateTime::currentDateTime()` is an explicit argument `now` of every function
  that constructs a `Note`.
* A slot is a `void` member function and becomes a function from controller state
  to controller state. The source has no `throw`; the delivery of an event
  (`NoteController.invoke`) is therefore always `Except.ok` of the new state.
* The list widget `noteListView` is its item count and the row of its current
  item. The constructor creates it empty and no slot inserts an item; states in
  which it holds rows are those a populated widget would give.
* `QString::arg` is Qt library code; `QString.arg` below follows its scanner
  (`findArgEscapes` / `replaceArgEscapes`): the place markers are `%n` and `%Ln`
  with one or two decimal digits, and one call replaces every occurrence of the
  lowest numbered marker.
-/

namespace PAPS

/-! ## Qt values -/

/-- Value of a `QDateTime`, as milliseconds since the epoch. -/
structure QDateTime where
  msecs : Nat
deriving DecidableEq, Repr

namespace QString

/-- Scanner position inside a place marker of `QString::arg`. -/
inductive Scan where
  | idle
  | pct
  | pctL
  | dig (loc : Bool) (d : Char)
deriving DecidableEq, Repr

/-- Decimal value of an ASCII digit, as `QChar::digitValue` gives for `'0'..'9'`. -/
def digitValue (c : Char) : Nat := c.toNat - 48

/-- Record one more escape number in the running minimum (`min_escape`). -/
def noteEscape (m : Option Nat) (n : Nat) : Option Nat :=
  match m with
  | none => some n
  | some k => some (min k n)

/-- The scan of `findArgEscapes`: the lowest place-marker number of the string,
`none` when the string has no place marker (`occurrences == 0`). -/
def findGo : Scan → Option Nat → List Char → Option Nat
  | .idle, m, [] => m
  | .pct, m, [] => m
  | .pctL, m, [] => m
  | .dig _ d, m, [] => noteEscape m (digitValue d)
  | .idle, m, c :: cs => if c = '%' then findGo .pct m cs else findGo .idle m cs
  | .pct, m, c :: cs =>
      if c = 'L' then findGo .pctL m cs
      else if c.isDigit then findGo (.dig false c) m cs
      else if c = '%' then findGo .pct m cs
      else findGo .idle m cs
  | .pctL, m, c :: cs =>
      if c.isDigit then findGo (.dig true c) m cs
      else if c = '%' then findGo .pct m cs
      else findGo .idle m cs
  | .dig _ d, m, c :: cs =>
      if c.isDigit then findGo .idle (noteEscape m (10 * digitValue d + digitValue c)) cs
      else if c = '%' then findGo .pct (noteEscape m (digitValue d)) cs
      else findGo .idle (noteEscape m (digitValue d)) cs

/-- Lowest place-marker number of a string (`findArgEscapes`). -/
def findArgEscapes (s : List Char) : Option Nat := findGo .idle none s

/-- Text written for a complete marker numbered `n` whose source text is
`'%'`, an optional `'L'`, and the digits `ds`: the argument when `n` is the
lowest number, the marker itself otherwise. -/
def emitEscape (lowest : Nat) (a : List Char) (n : Nat) (loc : Bool) (ds : List Char) :
    List Char :=
  if n = lowest then a else '%' :: ((if loc then ['L'] else []) ++ ds)

/-- The copy loop of `replaceArgEscapes`: every marker numbered `lowest` becomes
`a`, everything else is copied. -/
def replaceGo (lowest : Nat) (a : List Char) : Scan → List Char → List Char
  | .idle, [] => []
  | .pct, [] => ['%']
  | .pctL, [] => ['%', 'L']
  | .dig loc d, [] => emitEscape lowest a (digitValue d) loc [d]
  | .idle, c :: cs =>
      if c = '%' then replaceGo lowest a .pct cs else c :: replaceGo lowest a .idle cs
  | .pct, c :: cs =>
      if c = 'L' then replaceGo lowest a .pctL cs
      else if c.isDigit then replaceGo lowest a (.dig false c) cs
      else if c = '%' then '%' :: replaceGo lowest a .pct cs
      else '%' :: c :: replaceGo lowest a .idle cs
  | .pctL, c :: cs =>
      if c.isDigit then replaceGo lowest a (.dig true c) cs
      else if c = '%' then '%' :: 'L' :: replaceGo lowest a .pct cs
      else '%' :: 'L' :: c :: replaceGo lowest a .idle cs
  | .dig loc d, c :: cs =>
      if c.isDigit then
        emitEscape lowest a (10 * digitValue d + digitValue c) loc [d, c]
          ++ replaceGo lowest a .idle cs
      else if c = '%' then
        emitEscape lowest a (digitValue d) loc [d] ++ replaceGo lowest a .pct cs
      else
        emitEscape lowest a (digitValue d) loc [d] ++ c :: replaceGo lowest a .idle cs

/-- The call `s.arg(a)` of `QString::arg(const QString&)`: the string is returned
as it is when it has no place marker, otherwise every occurrence of its lowest
numbered marker is replaced by `a`. -/
def arg (s a : String) : String :=
  match findArgEscapes s.data with
  | none => s
  | some lowest => ⟨replaceGo lowest a.data .idle s.data⟩

end QString

/-! ## `Note` -/

/-- The class `Note`: three public fields. -/
structure Note where
  title : String
  text : String
  createdAt : QDateTime
deriving DecidableEq, Repr

/-- The constructor `Note(title, text)`; `now` is `QDateTime::currentDateTime()`. -/
def Note.create (title text : String) (now : QDateTime) : Note :=
  { title := title, text := text, createdAt := now }

/-! ## `NoteListModel` -/

/-- A `QModelIndex`: row, column, and whether a model issued it. -/
structure QModelIndex where
  row : Int
  column : Int
  hasModel : Bool
deriving DecidableEq, Repr

/-- The test `QModelIndex::isValid()`: non-negative row and column, and a model. -/
def QModelIndex.isValid (index : QModelIndex) : Bool :=
  decide (0 ≤ index.row) && decide (0 ≤ index.column) && index.hasModel

/-- Item data role `Qt::DisplayRole`. -/
def Qt.DisplayRole : Int := 0

/-- Item data role `Qt::EditRole`. -/
def Qt.EditRole : Int := 2

/-- The class `NoteListModel`: its private `QList<Note> notes`. -/
structure NoteListModel where
  notes : List Note
deriving DecidableEq, Repr

namespace NoteListModel

/-- The method `rowCount`: `notes.size()`. -/
def rowCount (m : NoteListModel) : Nat := m.notes.length

/-- The method `data(index, role)`; a null `QVariant()` is `none`. -/
def data (m : NoteListModel) (index : QModelIndex) (role : Int) : Option String :=
  if !index.isValid then none
  else if index.row ≥ (m.notes.length : Int) then none
  else if role = Qt.DisplayRole ∨ role = Qt.EditRole then
    (m.notes[index.row.toNat]?).map fun note =>
      QString.arg (QString.arg "%1: %2" note.title) note.text
  else none

/-- The method `setNotes(noteList)`: the model's list is replaced. -/
def setNotes (_m : NoteListModel) (noteList : List Note) : NoteListModel :=
  { notes := noteList }

end NoteListModel

/-! ## `NoteView` and `NoteEditor` -/

/-- The class `NoteView`: the texts of its two labels. The second label ends with
`note.createdAt.toString()`; that rendering depends on the locale, so the label is
kept as its text up to `"Created At: "` together with the time stamp rendered
after it. -/
structure NoteView where
  titleLabel : String
  textLabel : String
  createdAtShown : Option QDateTime
deriving DecidableEq, Repr

/-- The method `displayNote(note)`. -/
def NoteView.displayNote (_v : NoteView) (note : Note) : NoteView :=
  { titleLabel := "Title: " ++ note.title
    textLabel := "Text: " ++ note.text ++ "\nCreated At: "
    createdAtShown := some note.createdAt }

/-- The class `NoteEditor`: the contents of its two fields and whether the widget
is shown (`show()`) or hidden (`hide()`). -/
structure NoteEditor where
  titleEdit : String
  textEdit : String
  visible : Bool
deriving DecidableEq, Repr

namespace NoteEditor

/-- The method `setNoteData(title, text)`. -/
def setNoteData (e : NoteEditor) (title text : String) : NoteEditor :=
  { e with titleEdit := title, textEdit := text }

/-- The call `QWidget::show()`. -/
def «show» (e : NoteEditor) : NoteEditor := { e with visible := true }

/-- The call `QWidget::hide()`. -/
def hide (e : NoteEditor) : NoteEditor := { e with visible := false }

/-- The private slot `NoteEditor::saveNote`: the arguments of the `noteSaved`
signal it emits. -/
def saveNote (e : NoteEditor) : String × String := (e.titleEdit, e.textEdit)

end NoteEditor

/-! ## The list widget -/

/-- The `QListWidget` of the controller: how many items it holds and the row of
its current item. No function of the program inserts or removes an item, so an
item is identified by its row. -/
structure QListWidget where
  count : Nat
  currentRow : Option Nat
deriving DecidableEq, Repr

namespace QListWidget

/-- The call `currentItem()`: `none` is the null pointer. -/
def currentItem (w : QListWidget) : Option Nat := w.currentRow

/-- The call `row(item)` for an item of the widget. -/
def row (_w : QListWidget) (item : Nat) : Int := (item : Int)

/-- The call `setCurrentItem(item)`; a null pointer, or an item the widget does
not hold, leaves the widget without a current item. -/
def setCurrentItem (w : QListWidget) (item : Option Nat) : QListWidget :=
  match item with
  | none => { w with currentRow := none }
  | some r => { w with currentRow := if r < w.count then some r else none }

end QListWidget

/-! ## `NoteController` -/

/-- The class `NoteController`: its `notes` and the widgets it points to. -/
structure NoteController where
  notes : List Note
  noteListModel : NoteListModel
  noteView : NoteView
  noteEditor : NoteEditor
  noteListView : QListWidget
deriving DecidableEq, Repr

namespace NoteController

/-- The slot `updateNoteList`. -/
def updateNoteList (c : NoteController) : NoteController :=
  { c with noteListModel := c.noteListModel.setNotes c.notes }

/-- The slot `onNoteListItemChanged(currentItem, previousItem)`; the second
argument is unused by the source. -/
def onNoteListItemChanged (c : NoteController) (currentItem : Option Nat) (now : QDateTime) :
    NoteController :=
  match currentItem with
  | some item =>
      let index := c.noteListView.row item
      if 0 ≤ index ∧ index < (c.notes.length : Int) then
        match c.notes[index.toNat]? with
        | some note => { c with noteView := c.noteView.displayNote note }
        | none => c
      else c
  | none => { c with noteView := c.noteView.displayNote (Note.create "" "" now) }

/-- The call `noteListView->setCurrentItem(item)` together with the connection of
`currentItemChanged` to `onNoteListItemChanged` (line 174): the slot runs when the
current item has changed. -/
def setCurrentItem (c : NoteController) (item : Option Nat) (now : QDateTime) :
    NoteController :=
  let w := c.noteListView.setCurrentItem item
  let c1 := { c with noteListView := w }
  if w.currentRow = c.noteListView.currentRow then c1
  else onNoteListItemChanged c1 w.currentItem now

/-- The slot `createNote`. -/
def createNote (c : NoteController) (now : QDateTime) : NoteController :=
  let c1 := c.setCurrentItem none now
  let c2 := { c1 with noteEditor := c1.noteEditor.setNoteData "" "" }
  { c2 with noteEditor := c2.noteEditor.show }

/-- The slot `deleteNote`. -/
def deleteNote (c : NoteController) : NoteController :=
  match c.noteListView.currentItem with
  | some currentItem =>
      let index := c.noteListView.row currentItem
      if 0 ≤ index ∧ index < (c.notes.length : Int) then
        updateNoteList { c with notes := c.notes.eraseIdx index.toNat }
      else c
  | none => c

/-- The slot `saveNote(title, text)`. -/
def saveNote (c : NoteController) (title text : String) (now : QDateTime) : NoteController :=
  let c1 :=
    match c.noteListView.currentItem with
    | some currentItem =>
        let index := c.noteListView.row currentItem
        if 0 ≤ index ∧ index < (c.notes.length : Int) then
          match c.notes[index.toNat]? with
          | some note =>
              { c with notes := c.notes.set index.toNat { note with title := title, text := text } }
          | none => c
        else c
    | none => { c with notes := c.notes ++ [Note.create title text now] }
  updateNoteList { c1 with noteEditor := c1.noteEditor.hide }

/-- The state the constructor leaves (called from `main` with a fresh model, view
and editor): no notes, an empty list widget, the editor hidden, the model
refreshed. -/
def init : NoteController :=
  updateNoteList
    { notes := []
      noteListModel := { notes := [] }
      noteView := { titleLabel := "", textLabel := "", createdAtShown := none }
      noteEditor := NoteEditor.hide { titleEdit := "", textEdit := "", visible := true }
      noteListView := { count := 0, currentRow := none } }

end NoteController

/-! ## Events -/

/-- The only error kind the specification names. -/
inductive NoteError where
  | IndexOutOfRange
deriving DecidableEq, Repr

/-- What the event loop can deliver to the controller: a click on row `i` of the
list widget, a click on one of the two buttons, the `noteSaved` signal of the
editor, and a refresh of the list model. -/
inductive Event where
  | selectItem (i : Nat) (now : QDateTime)
  | createNote (now : QDateTime)
  | deleteNote
  | saveNote (title text : String) (now : QDateTime)
  | updateNoteList
deriving DecidableEq, Repr

namespace NoteController

/-- A click on row `i` of the list widget makes that item current. -/
def selectItem (c : NoteController) (i : Nat) (now : QDateTime) : NoteController :=
  c.setCurrentItem (some i) now

/-- Delivery of one event. Every slot of the source runs to its end and none of
them throws, so the outcome is always `Except.ok`. -/
def invoke (c : NoteController) : Event → Except NoteError NoteController
  | .selectItem i now => .ok (c.selectItem i now)
  | .createNote now => .ok (c.createNote now)
  | .deleteNote => .ok c.deleteNote
  | .saveNote title text now => .ok (c.saveNote title text now)
  | .updateNoteList => .ok c.updateNoteList

/-- The list widget can deliver a click on row `i` only when it holds that row. -/
def widgetEnabled (c : NoteController) : Event → Bool
  | .selectItem i _ => decide (i < c.noteListView.count)
  | _ => true

/-- Deliver a list of events in order; `none` when an event is refused by
`guard` or a slot fails. -/
def runWith (guard : NoteController → Event → Bool) :
    NoteController → List Event → Option NoteController
  | c, [] => some c
  | c, e :: es =>
      if guard c e then
        match c.invoke e with
        | .ok c' => runWith guard c' es
        | .error _ => none
      else none

/-- The list widget holds no item and has no current item. -/
def WidgetEmpty (c : NoteController) : Prop :=
  c.noteListView.count = 0 ∧ c.noteListView.currentItem = none

end NoteController

/-! ## Example states -/

/-- Two notes, the second one selected in a list widget that shows both. -/
def twoNotesSecondSelected : NoteController :=
  { notes := [⟨"A", "x", ⟨1⟩⟩, ⟨"B", "y", ⟨2⟩⟩]
    noteListModel := { notes := [⟨"A", "x", ⟨1⟩⟩, ⟨"B", "y", ⟨2⟩⟩] }
    noteView := { titleLabel := "", textLabel := "", createdAtShown := none }
    noteEditor := { titleEdit := "", textEdit := "", visible := false }
    noteListView := { count := 2, currentRow := some 1 } }

/-- One note, selected, with the edit form open on it. -/
def oneNoteSelected : NoteController :=
  { notes := [⟨"T", "B", ⟨7⟩⟩]
    noteListModel := { notes := [⟨"T", "B", ⟨7⟩⟩] }
    noteView := { titleLabel := "", textLabel := "", createdAtShown := none }
    noteEditor := { titleEdit := "T", textEdit := "B", visible := true }
    noteListView := { count := 1, currentRow := some 0 } }

/-- An empty store while the list widget still has its first row selected and the
edit form is open: the selected note has been deleted. -/
def staleSelection : NoteController :=
  { notes := []
    noteListModel := { notes := [] }
    noteView := { titleLabel := "", textLabel := "", createdAtShown := none }
    noteEditor := { titleEdit := "T", textEdit := "B", visible := true }
    noteListView := { count := 1, currentRow := some 0 } }

/-- The list model after the user has created and saved a note whose title is the
two characters `%1` and whose text is `x`. -/
def markerTitleModel : NoteListModel :=
  (NoteController.init.createNote ⟨1⟩ |>.saveNote "%1" "x" ⟨2⟩).noteListModel

/-! ## Helper lemmas -/

namespace NoteController

theorem updateNoteList_notes (c : NoteController) : c.updateNoteList.notes = c.notes := rfl

theorem updateNoteList_noteListView (c : NoteController) :
    c.updateNoteList.noteListView = c.noteListView := rfl

theorem onNoteListItemChanged_notes (c : NoteController) (item : Option Nat) (now : QDateTime) :
    (c.onNoteListItemChanged item now).notes = c.notes := by
  cases item with
  | none => rfl
  | some i =>
      simp only [onNoteListItemChanged]
      split
      · split <;> rfl
      · rfl

theorem onNoteListItemChanged_noteListView (c : NoteController) (item : Option Nat)
    (now : QDateTime) :
    (c.onNoteListItemChanged item now).noteListView = c.noteListView := by
  cases item with
  | none => rfl
  | some i =>
      simp only [onNoteListItemChanged]
      split
      · split <;> rfl
      · rfl

theorem onNoteListItemChanged_noteEditor (c : NoteController) (item : Option Nat)
    (now : QDateTime) :
    (c.onNoteListItemChanged item now).noteEditor = c.noteEditor := by
  cases item with
  | none => rfl
  | some i =>
      simp only [onNoteListItemChanged]
      split
      · split <;> rfl
      · rfl

theorem setCurrentItem_notes (c : NoteController) (item : Option Nat) (now : QDateTime) :
    (c.setCurrentItem item now).notes = c.notes := by
  unfold setCurrentItem
  simp only
  split
  · rfl
  · rw [onNoteListItemChanged_notes]

theorem setCurrentItem_noteEditor (c : NoteController) (item : Option Nat) (now : QDateTime) :
    (c.setCurrentItem item now).noteEditor = c.noteEditor := by
  unfold setCurrentItem
  simp only
  split
  · rfl
  · rw [onNoteListItemChanged_noteEditor]

theorem setCurrentItem_noteListView (c : NoteController) (item : Option Nat) (now : QDateTime) :
    (c.setCurrentItem item now).noteListView = c.noteListView.setCurrentItem item := by
  unfold setCurrentItem
  simp only
  split
  · rfl
  · rw [onNoteListItemChanged_noteListView]

theorem createNote_notes (c : NoteController) (now : QDateTime) :
    (c.createNote now).notes = c.notes := by
  simp [createNote, setCurrentItem_notes]

theorem createNote_noteListView (c : NoteController) (now : QDateTime) :
    (c.createNote now).noteListView = { c.noteListView with currentRow := none } := by
  simp [createNote, setCurrentItem_noteListView, QListWidget.setCurrentItem]

theorem deleteNote_noteListView (c : NoteController) :
    c.deleteNote.noteListView = c.noteListView := by
  unfold deleteNote
  split
  · dsimp only
    split <;> rfl
  · rfl

theorem saveNote_noteListView (c : NoteController) (title text : String) (now : QDateTime) :
    (c.saveNote title text now).noteListView = c.noteListView := by
  unfold saveNote
  simp only [updateNoteList_noteListView]
  split
  · split
    · split <;> rfl
    · rfl
  · rfl

theorem saveNote_none (c : NoteController) (title text : String) (now : QDateTime)
    (h : c.noteListView.currentItem = none) :
    (c.saveNote title text now).notes = c.notes ++ [Note.create title text now] := by
  simp [saveNote, h, updateNoteList]

theorem saveNote_some (c : NoteController) (title text : String) (now : QDateTime) (i : Nat)
    (h : c.noteListView.currentItem = some i) (n : Note) (hn : c.notes[i]? = some n) :
    (c.saveNote title text now).notes = c.notes.set i { n with title := title, text := text } := by
  have hi : i < c.notes.length := by
    rcases List.getElem?_eq_some.1 hn with ⟨hlt, _⟩
    exact hlt
  simp [saveNote, h, updateNoteList, QListWidget.row, hi, hn]

theorem saveNote_stale (c : NoteController) (title text : String) (now : QDateTime) (i : Nat)
    (h : c.noteListView.currentItem = some i) (hi : ¬ i < c.notes.length) :
    (c.saveNote title text now).notes = c.notes := by
  simp [saveNote, h, updateNoteList, QListWidget.row, hi]

theorem deleteNote_none (c : NoteController) (h : c.noteListView.currentItem = none) :
    c.deleteNote = c := by
  simp [deleteNote, h]

theorem deleteNote_some (c : NoteController) (i : Nat)
    (h : c.noteListView.currentItem = some i) (hi : i < c.notes.length) :
    c.deleteNote.notes = c.notes.eraseIdx i := by
  simp [deleteNote, h, updateNoteList, QListWidget.row, hi]

theorem deleteNote_stale (c : NoteController) (i : Nat)
    (h : c.noteListView.currentItem = some i) (hi : ¬ i < c.notes.length) :
    c.deleteNote = c := by
  simp [deleteNote, h, QListWidget.row, hi]

/-! ## The claims about single slots -/

/-- C1: `saveNote(title, text)` with no current item in the list runs to its end,
keeps every existing note in place and appends exactly one note with that title and
text (created at the clock reading), so the store is the old one followed by the new
note and is one longer; from an empty store, saving `("A","x")` and then `("B","y")`
gives the notes `A/x`, `B/y` in that order. -/
theorem saveNote_creating_appends (c : NoteController) (title text : String) (now : QDateTime)
    (h : c.noteListView.currentItem = none) :
    c.invoke (.saveNote title text now) = .ok (c.saveNote title text now) ∧
    (c.saveNote title text now).notes
      = c.notes ++ [{ title := title, text := text, createdAt := now }] ∧
    (c.saveNote title text now).notes.length = c.notes.length + 1 ∧
    (c.notes = [] → ∀ t₁ t₂ : QDateTime,
      ((c.saveNote "A" "x" t₁).saveNote "B" "y" t₂).notes
        = [{ title := "A", text := "x", createdAt := t₁ },
           { title := "B", text := "y", createdAt := t₂ }]) := by
  refine ⟨rfl, ?_, ?_, ?_⟩
  · rw [saveNote_none c title text now h]; rfl
  · rw [saveNote_none c title text now h]; simp
  · intro hempty t₁ t₂
    have h₁ : (c.saveNote "A" "x" t₁).noteListView.currentItem = none := by
      rw [saveNote_noteListView]; exact h
    rw [saveNote_none _ _ _ _ h₁, saveNote_none _ _ _ _ h, hempty]
    rfl

/-- C1, at the constructed controller: saving `("A","x")` gives the one-note store. -/
theorem saveNote_creating_appends_witness :
    init.noteListView.currentItem = none ∧
    (init.saveNote "A" "x" ⟨1⟩).notes
      = init.notes ++ [{ title := "A", text := "x", createdAt := ⟨1⟩ }] :=
  ⟨rfl, (saveNote_creating_appends init "A" "x" ⟨1⟩ rfl).2.1⟩

/-- C2: with a current item at a row `i` inside the store, `saveNote(title, text)`
keeps the store length, puts the given title and text into the note at `i`, keeps
that note's `createdAt`, and leaves every other position as it was. -/
theorem saveNote_editing_updates (c : NoteController) (i : Nat) (title text : String)
    (now : QDateTime) (h : c.noteListView.currentItem = some i) (hi : i < c.notes.length) :
    (c.saveNote title text now).notes.length = c.notes.length ∧
    (∃ old, c.notes[i]? = some old ∧
      (c.saveNote title text now).notes[i]?
        = some { title := title, text := text, createdAt := old.createdAt }) ∧
    (∀ j, j ≠ i → (c.saveNote title text now).notes[j]? = c.notes[j]?) := by
  have hn : c.notes[i]? = some (c.notes[i]) := List.getElem?_eq_getElem hi
  have hs := saveNote_some c title text now i h _ hn
  refine ⟨?_, ⟨c.notes[i], hn, ?_⟩, ?_⟩
  · rw [hs]; simp
  · rw [hs]; simp [hi]
  · intro j hj
    rw [hs, List.getElem?_set_ne (Ne.symm hj)]

/-- C2, at one selected note: `save("T2","B2")` gives `T2/B2` with the old
`createdAt`. -/
theorem saveNote_editing_updates_witness :
    oneNoteSelected.noteListView.currentItem = some 0 ∧
    0 < oneNoteSelected.notes.length ∧
    (oneNoteSelected.saveNote "T2" "B2" ⟨99⟩).notes.length = oneNoteSelected.notes.length ∧
    (oneNoteSelected.saveNote "T2" "B2" ⟨99⟩).notes
      = [{ title := "T2", text := "B2", createdAt := ⟨7⟩ }] :=
  ⟨rfl, by decide, (saveNote_editing_updates oneNoteSelected 0 "T2" "B2" ⟨99⟩ rfl (by decide)).1,
    rfl⟩

/-- C3: with a current item at a row `i` inside the store, `deleteNote` removes
exactly the note at `i`: the store is one shorter, positions below `i` are kept, and
the note formerly at `j > i` is at `j - 1`; reading position `i` afterwards gives the
former note `i + 1`. -/
theorem deleteNote_removes_selected (c : NoteController) (i : Nat)
    (h : c.noteListView.currentItem = some i) (hi : i < c.notes.length) :
    c.deleteNote.notes.length + 1 = c.notes.length ∧
    (∀ j, j < i → c.deleteNote.notes[j]? = c.notes[j]?) ∧
    (∀ j, i < j → c.deleteNote.notes[j - 1]? = c.notes[j]?) ∧
    c.deleteNote.notes[i]? = c.notes[i + 1]? := by
  have hd := deleteNote_some c i h hi
  refine ⟨?_, ?_, ?_, ?_⟩
  · rw [hd, List.length_eraseIdx]
    simp only [hi, if_true]
    omega
  · intro j hj
    rw [hd, List.getElem?_eraseIdx]
    simp [hj]
  · intro j hj
    rw [hd, List.getElem?_eraseIdx]
    have h1 : ¬ j - 1 < i := by omega
    have h2 : j - 1 + 1 = j := by omega
    simp [h1, h2]
  · rw [hd, List.getElem?_eraseIdx]
    simp

/-- C3, at two notes with the second selected: one note is left, the first. -/
theorem deleteNote_removes_selected_witness :
    twoNotesSecondSelected.noteListView.currentItem = some 1 ∧
    1 < twoNotesSecondSelected.notes.length ∧
    twoNotesSecondSelected.deleteNote.notes.length + 1 = twoNotesSecondSelected.notes.length ∧
    twoNotesSecondSelected.deleteNote.notes[0]? = twoNotesSecondSelected.notes[0]? :=
  ⟨rfl, by decide,
    (deleteNote_removes_selected twoNotesSecondSelected 1 rfl (by decide)).1,
    (deleteNote_removes_selected twoNotesSecondSelected 1 rfl (by decide)).2.1 0 (by decide)⟩

/-- C4: `deleteNote` with no current item in the list runs to its end without an
error and leaves the whole controller state, the store included, as it was; the
store may be empty. -/
theorem deleteNote_without_selection (c : NoteController)
    (h : c.noteListView.currentItem = none) :
    c.invoke .deleteNote = .ok c ∧ c.deleteNote.notes = c.notes := by
  have hd := deleteNote_none c h
  refine ⟨?_, by rw [hd]⟩
  show Except.ok c.deleteNote = Except.ok c
  rw [hd]

/-- C4, at the constructed controller, whose store is empty. -/
theorem deleteNote_without_selection_witness :
    init.noteListView.currentItem = none ∧ init.notes = [] ∧
    init.invoke .deleteNote = .ok init :=
  ⟨rfl, rfl, (deleteNote_without_selection init rfl).1⟩

/-- C6: after `createNote`, from any state, the list has no current item, both
fields of the edit form are empty, the edit form is shown, and the store is as it
was; the slot runs to its end. -/
theorem createNote_blank_form (c : NoteController) (now : QDateTime) :
    c.invoke (.createNote now) = .ok (c.createNote now) ∧
    (c.createNote now).noteListView.currentItem = none ∧
    (c.createNote now).noteEditor.titleEdit = "" ∧
    (c.createNote now).noteEditor.textEdit = "" ∧
    (c.createNote now).noteEditor.visible = true ∧
    (c.createNote now).notes = c.notes := by
  refine ⟨rfl, ?_, rfl, rfl, rfl, createNote_notes c now⟩
  rw [createNote_noteListView]
  rfl

/-- C7 as stated fails: with the first row still selected over an empty store,
`saveNote` does not fail with `IndexOutOfRange`; it runs to its end. -/
theorem saveNote_stale_selection_no_error :
    staleSelection.noteListView.currentItem = some 0 ∧
    ¬ 0 < staleSelection.notes.length ∧
    staleSelection.invoke (.saveNote "T2" "B2" ⟨9⟩) ≠ .error .IndexOutOfRange ∧
    staleSelection.invoke (.saveNote "T2" "B2" ⟨9⟩)
      = .ok { staleSelection with
                noteEditor := { titleEdit := "T", textEdit := "B", visible := false } } := by
  refine ⟨rfl, by decide, ?_, rfl⟩
  intro hfail
  exact Except.noConfusion hfail

/-- C7, amended: with a current item at a row `i` outside the store, `saveNote`
raises no error; it runs to its end, leaves the store as it was, hides the edit form
and refreshes the list model, and nothing else changes. -/
theorem saveNote_stale_selection_ignored (c : NoteController) (i : Nat) (title text : String)
    (now : QDateTime) (h : c.noteListView.currentItem = some i) (hi : ¬ i < c.notes.length) :
    c.invoke (.saveNote title text now)
      = .ok { c with noteEditor := c.noteEditor.hide, noteListModel := { notes := c.notes } } ∧
    (c.saveNote title text now).notes = c.notes := by
  refine ⟨?_, saveNote_stale c title text now i h hi⟩
  show Except.ok (c.saveNote title text now) = _
  simp [saveNote, h, updateNoteList, QListWidget.row, hi, NoteListModel.setNotes]

/-- C7, amended, at the stale selection over an empty store. -/
theorem saveNote_stale_selection_ignored_witness :
    staleSelection.noteListView.currentItem = some 0 ∧
    ¬ 0 < staleSelection.notes.length ∧
    (staleSelection.saveNote "T2" "B2" ⟨9⟩).notes = staleSelection.notes :=
  ⟨rfl, by decide,
    (saveNote_stale_selection_ignored staleSelection 0 "T2" "B2" ⟨9⟩ rfl (by decide)).2⟩

/-- C9 as stated fails: with two notes and the second selected, `deleteNote`
leaves the first note in the store, and the list still has row 1 as its current
item. -/
theorem deleteNote_keeps_current_item :
    twoNotesSecondSelected.noteListView.currentItem = some 1 ∧
    1 < twoNotesSecondSelected.notes.length ∧
    twoNotesSecondSelected.deleteNote.notes = [⟨"A", "x", ⟨1⟩⟩] ∧
    twoNotesSecondSelected.deleteNote.noteListView.currentItem = some 1 ∧
    twoNotesSecondSelected.deleteNote.noteListView.currentItem ≠ none := by
  decide

/-- C9, amended: with a current item at a row `i` inside the store, `deleteNote`
removes the note at `i` and does not touch the list widget, whose current item is
still row `i` afterwards. -/
theorem deleteNote_selection_untouched (c : NoteController) (i : Nat)
    (h : c.noteListView.currentItem = some i) (hi : i < c.notes.length) :
    c.deleteNote.notes = c.notes.eraseIdx i ∧
    c.deleteNote.noteListView = c.noteListView ∧
    c.deleteNote.noteListView.currentItem = some i := by
  refine ⟨deleteNote_some c i h hi, deleteNote_noteListView c, ?_⟩
  rw [deleteNote_noteListView]
  exact h

/-- C9, amended, at two notes with the second selected: the first note is left
and row 1 is still current. -/
theorem deleteNote_selection_untouched_witness :
    twoNotesSecondSelected.noteListView.currentItem = some 1 ∧
    1 < twoNotesSecondSelected.notes.length ∧
    twoNotesSecondSelected.deleteNote.notes = [⟨"A", "x", ⟨1⟩⟩] ∧
    twoNotesSecondSelected.deleteNote.noteListView.currentItem = some 1 :=
  ⟨rfl, by decide,
    (deleteNote_selection_untouched twoNotesSecondSelected 1 rfl (by decide)).1,
    (deleteNote_selection_untouched twoNotesSecondSelected 1 rfl (by decide)).2.2⟩

/-! ## Runs of events -/

theorem runWith_invariant (guard : NoteController → Event → Bool)
    (P : NoteController → Prop) (Q : Event → Prop)
    (hstep : ∀ c e c', P c → Q e → guard c e = true → c.invoke e = .ok c' → P c') :
    ∀ (es : List Event) (c c' : NoteController),
      (∀ e ∈ es, Q e) → P c → runWith guard c es = some c' → P c' := by
  intro es
  induction es with
  | nil =>
      intro c c' _ hP hrun
      simp only [runWith, Option.some.injEq] at hrun
      exact hrun ▸ hP
  | cons e es ih =>
      intro c c' hQ hP hrun
      by_cases hg : guard c e = true
      · cases hinv : c.invoke e with
        | error err => simp [runWith, hg, hinv] at hrun
        | ok c₁ =>
            simp only [runWith, hg, hinv, if_true] at hrun
            exact ih c₁ c' (fun e' he' => hQ e' (List.mem_cons_of_mem _ he'))
              (hstep c e c₁ hP (hQ e (List.mem_cons_self _ _)) hg hinv) hrun
      · simp [runWith, hg] at hrun

theorem selectItem_notes (c : NoteController) (i : Nat) (now : QDateTime) :
    (c.selectItem i now).notes = c.notes :=
  setCurrentItem_notes c (some i) now

theorem widgetEmpty_step (c : NoteController) (e : Event) (c' : NoteController)
    (hP : WidgetEmpty c) (hg : c.widgetEnabled e = true) (hinv : c.invoke e = .ok c') :
    WidgetEmpty c' := by
  cases e with
  | selectItem i now =>
      simp only [widgetEnabled, decide_eq_true_eq] at hg
      rw [hP.1] at hg
      exact absurd hg (Nat.not_lt_zero i)
  | createNote now =>
      simp only [invoke, Except.ok.injEq] at hinv
      subst hinv
      unfold WidgetEmpty
      rw [createNote_noteListView]
      exact ⟨hP.1, rfl⟩
  | deleteNote =>
      simp only [invoke, Except.ok.injEq] at hinv
      subst hinv
      unfold WidgetEmpty
      rw [deleteNote_noteListView]
      exact hP
  | saveNote title text now =>
      simp only [invoke, Except.ok.injEq] at hinv
      subst hinv
      unfold WidgetEmpty
      rw [saveNote_noteListView]
      exact hP
  | updateNoteList =>
      simp only [invoke, Except.ok.injEq] at hinv
      subst hinv
      exact hP

theorem notes_length_step (c : NoteController) (e : Event) (c' : NoteController)
    (hP : WidgetEmpty c) (hg : c.widgetEnabled e = true) (hinv : c.invoke e = .ok c') :
    c.notes.length ≤ c'.notes.length := by
  cases e with
  | selectItem i now =>
      simp only [widgetEnabled, decide_eq_true_eq] at hg
      rw [hP.1] at hg
      exact absurd hg (Nat.not_lt_zero i)
  | createNote now =>
      simp only [invoke, Except.ok.injEq] at hinv
      subst hinv
      rw [createNote_notes]
  | deleteNote =>
      simp only [invoke, Except.ok.injEq] at hinv
      subst hinv
      rw [deleteNote_none c hP.2]
  | saveNote title text now =>
      simp only [invoke, Except.ok.injEq] at hinv
      subst hinv
      rw [saveNote_none c title text now hP.2]
      simp
  | updateNoteList =>
      simp only [invoke, Except.ok.injEq] at hinv
      subst hinv
      exact Nat.le_refl _

/-- C10: in every state reached from the constructed controller by `createNote`,
`deleteNote`, `saveNote`, `updateNoteList` (and whatever clicks the list widget can
deliver), the list widget holds no item and has no current item; `updateNoteList`
leaves the widget alone; so in such a state `deleteNote` changes nothing, `saveNote`
appends, and no event makes the store shorter. -/
theorem list_widget_never_filled (es : List Event) (c : NoteController)
    (hrun : runWith widgetEnabled init es = some c) :
    c.noteListView.count = 0 ∧
    c.noteListView.currentItem = none ∧
    c.updateNoteList.noteListView = c.noteListView ∧
    c.deleteNote = c ∧
    (∀ title text now,
      (c.saveNote title text now).notes
        = c.notes ++ [{ title := title, text := text, createdAt := now }]) ∧
    (∀ e c', c.widgetEnabled e = true → c.invoke e = .ok c' →
      c.notes.length ≤ c'.notes.length) := by
  have hW : WidgetEmpty c := by
    refine runWith_invariant widgetEnabled WidgetEmpty (fun _ => True) ?_ es init c
      (fun _ _ => trivial) ⟨rfl, rfl⟩ hrun
    intro c₁ e c₂ hP _ hg hinv
    exact widgetEmpty_step c₁ e c₂ hP hg hinv
  refine ⟨hW.1, hW.2, rfl, deleteNote_none c hW.2, ?_, ?_⟩
  · intro title text now
    rw [saveNote_none c title text now hW.2]
    rfl
  · intro e c' hg hinv
    exact notes_length_step c e c' hW hg hinv

/-- C10, on the run create, save, delete, refresh: the widget is empty and the
delete changed nothing. -/
theorem list_widget_never_filled_witness :
    runWith widgetEnabled init
        [.createNote ⟨1⟩, .saveNote "A" "x" ⟨2⟩, .deleteNote, .updateNoteList]
      = some (init.createNote ⟨1⟩ |>.saveNote "A" "x" ⟨2⟩) ∧
    (init.createNote ⟨1⟩ |>.saveNote "A" "x" ⟨2⟩).noteListView.count = 0 ∧
    (init.createNote ⟨1⟩ |>.saveNote "A" "x" ⟨2⟩).noteListView.currentItem = none :=
  ⟨rfl,
    (list_widget_never_filled
      [.createNote ⟨1⟩, .saveNote "A" "x" ⟨2⟩, .deleteNote, .updateNoteList] _ rfl).1,
    (list_widget_never_filled
      [.createNote ⟨1⟩, .saveNote "A" "x" ⟨2⟩, .deleteNote, .updateNoteList] _ rfl).2.1⟩

end NoteController

/-! ## The display label -/

theorem rowCount_setNotes (m : NoteListModel) (noteList : List Note) :
    (m.setNotes noteList).rowCount = noteList.length := rfl

/-- The chained call of the Qt documentation of `QString::arg`:
`QString("%1 %2").arg("%1f").arg("Hello")` is `"Hellof %2"`. -/
theorem arg_chained_documented :
    QString.arg (QString.arg "%1 %2" "%1f") "Hello" = "Hellof %2" := by
  decide

theorem arg_template (title : String) :
    QString.arg "%1: %2" title = ⟨title.data ++ [':', ' ', '%', '2']⟩ := by
  rfl

theorem findGo_idle_plain (t rest : List Char) (m : Option Nat) (h : '%' ∉ t) :
    QString.findGo .idle m (t ++ rest) = QString.findGo .idle m rest := by
  induction t with
  | nil => rfl
  | cons c cs ih =>
      have hc : c ≠ '%' := fun hEq => h (hEq ▸ List.mem_cons_self _ _)
      have hcs : '%' ∉ cs := fun hmem => h (List.mem_cons_of_mem _ hmem)
      simp only [List.cons_append, QString.findGo, if_neg hc]
      exact ih hcs

theorem replaceGo_idle_plain (lowest : Nat) (a t rest : List Char) (h : '%' ∉ t) :
    QString.replaceGo lowest a .idle (t ++ rest)
      = t ++ QString.replaceGo lowest a .idle rest := by
  induction t with
  | nil => rfl
  | cons c cs ih =>
      have hc : c ≠ '%' := fun hEq => h (hEq ▸ List.mem_cons_self _ _)
      have hcs : '%' ∉ cs := fun hmem => h (List.mem_cons_of_mem _ hmem)
      simp only [List.cons_append, QString.replaceGo, if_neg hc]
      exact congrArg (c :: ·) (ih hcs)

/-- For a title without the character `%` the two chained `arg` calls give the
title, `": "` and the text, whatever the text holds. -/
theorem label_of_plain_title (title text : String) (h : '%' ∉ title.data) :
    QString.arg (QString.arg "%1: %2" title) text = title ++ ": " ++ text := by
  rw [arg_template]
  unfold QString.arg QString.findArgEscapes
  simp only
  rw [findGo_idle_plain _ _ _ h]
  have h2 : QString.findGo .idle none [':', ' ', '%', '2'] = some 2 := by decide
  rw [h2]
  simp only
  rw [replaceGo_idle_plain _ _ _ _ h]
  have h3 : QString.replaceGo 2 text.data .idle [':', ' ', '%', '2']
      = [':', ' '] ++ text.data := rfl
  rw [h3]
  apply String.ext
  simp [String.data_append]

/-- For every list given to the model, `rowCount` is its length, and a row whose
title has no `%` is displayed as title, `": "`, text. -/
theorem data_of_plain_title (m : NoteListModel) (noteList : List Note) (i : Nat) (note : Note)
    (hnote : noteList[i]? = some note) (h : '%' ∉ note.title.data) :
    (m.setNotes noteList).rowCount = noteList.length ∧
    (m.setNotes noteList).data ⟨i, 0, true⟩ Qt.DisplayRole
      = some (note.title ++ ": " ++ note.text) := by
  have hi : i < noteList.length := (List.getElem?_eq_some.1 hnote).1
  refine ⟨rfl, ?_⟩
  simp [NoteListModel.data, NoteListModel.setNotes, QModelIndex.isValid, hi, hnote,
    label_of_plain_title _ _ h]

/-- C5 fails on the code: after the user saves a note with title `%1` and text `x`,
the model has one row, and the label `data` returns for it is `x: %2`, not
`%1: x`; the second `arg` call replaces the marker that the title brought in. The
note `Hi` / `there` is displayed as `Hi: there`. -/
theorem data_label_marker_title :
    markerTitleModel.notes = [{ title := "%1", text := "x", createdAt := ⟨2⟩ }] ∧
    markerTitleModel.rowCount = 1 ∧
    markerTitleModel.data ⟨0, 0, true⟩ Qt.DisplayRole = some "x: %2" ∧
    markerTitleModel.data ⟨0, 0, true⟩ Qt.DisplayRole ≠ some ("%1" ++ ": " ++ "x") ∧
    (NoteListModel.setNotes markerTitleModel [⟨"Hi", "there", ⟨3⟩⟩]).data ⟨0, 0, true⟩
      Qt.DisplayRole = some "Hi: there" := by
  decide

end PAPS
